import Mathlib

/-!
archivist: the B2 upload client and the upload handler.

A shallow embedding of `b2.go` (`B2.Upload`, `B2.getUploadURL`,
`B2.authorizeAccount`, `getFileID`) and of `handler.go`
(`Handler.ServeHTTP`, `readAndHashBody`, `writeResponse`).

The Go code talks to a remote backend through `http.Client.Do`.  Here the
backend is a value of type `Env`: for every endpoint it fixes the answer to the
i-th call made to that endpoint.  The mutable `*B2` receiver, the number of
calls already made and the list of calls issued so far are threaded through
every function as a `World`.  Logging (`zap`) and `fmt.Printf` only write to
the log sink and are left out; `time.Sleep` is recorded as a call.

Library functions whose result depends on data (`json.Unmarshal`,
`url.Parse` inside `http.NewRequestWithContext`, `sha1`, `json.Marshal`)
are fields of `Env`.
-/

namespace Archivist

/-- One octet of a request body. -/
abbrev Byte := Nat

/-- Go `error` values that the upload client builds or receives. -/
inductive GoError where
  /-- the package variable `errUnauthorized` -/
  | errUnauthorized
  /-- the package variable `errTooManyRequests` -/
  | errTooManyRequests
  /-- the package variable `errTimeout` -/
  | errTimeout
  /-- a fresh `errors.New(msg)` -/
  | new (msg : String)
  /-- the value of `fmt.Errorf(msg + ": %w", err)` -/
  | wrap (msg : String) (err : GoError)
  /-- an error value returned by a library call (net/http, io, encoding/json) -/
  | lib (msg : String)
  deriving DecidableEq, Repr

/-- A decoded JSON value, as far as the client looks at it: a string or not. -/
inductive JValue where
  | string (s : String)
  | other
  deriving DecidableEq, Repr

/-- The `map[string]interface{}` that `json.Unmarshal` fills. -/
abbrev JObject := List (String × JValue)

/-- The Go expression `o[key].(string)`: `none` stands for the run-time panic
of the type assertion (key absent, or value not a string). -/
def assertString (o : JObject) (key : String) : Option String :=
  match o.lookup key with
  | some (JValue.string s) => some s
  | _ => none

/-- What `ioutil.ReadAll(response.Body)` yields. -/
inductive Body where
  | data (text : String)
  | readError (err : GoError)
  deriving DecidableEq, Repr

/-- The part of `*http.Response` the client reads. -/
structure Response where
  statusCode : Nat
  body : Body
  deriving DecidableEq, Repr

/-- The two results of `b.client.Do(req)`. -/
inductive DoResult where
  | response (resp : Response)
  | error (err : GoError)
  deriving DecidableEq, Repr

/-- The answer to one upload call: how many bytes of the request body reader
the transport consumed before `Do` returned, and what `Do` returned. -/
structure UploadExchange where
  consumed : Nat
  result : DoResult
  deriving DecidableEq, Repr

/-- The backend and the data-dependent library functions. -/
structure Env where
  /-- answer to the i-th `b2_authorize_account` call -/
  authorizeAccount : Nat → DoResult
  /-- answer to the i-th `b2_get_upload_url` call -/
  getUploadURL : Nat → DoResult
  /-- answer to the i-th upload call -/
  upload : Nat → UploadExchange
  /-- `json.Unmarshal(data, &o)` for `o` a `map[string]interface{}` -/
  jsonUnmarshal : String → Except GoError JObject
  /-- the error of `http.NewRequestWithContext` for a URL, `none` when the
  request is built -/
  newRequestErr : String → Option GoError
  /-- `hex.EncodeToString(sha1.Sum(..))` -/
  sha1Hex : List Byte → String
  /-- `json.Marshal` of the success object `id, name, media_type, sha1, size` -/
  marshalResult : String → String → String → String → Int → String

/-- The fields of the `B2` struct other than logger and client. -/
structure B2 where
  keyID : String
  keyToken : String
  bucketID : String
  apiURL : String
  apiToken : String
  uploadAuthToken : String
  uploadURL : String
  deriving DecidableEq, Repr

/-- A call that leaves the process. -/
inductive Call where
  /-- GET on the fixed authorization endpoint with basic auth -/
  | authorizeAccount (keyID keyToken : String)
  /-- POST to `url` with header `Authorization` and JSON body holding `bucketId` -/
  | getUploadURL (url authorization bucketID : String)
  /-- POST to `url`; `size` is the `Content-Length` header, `sha1` the
  `X-Bz-Content-Sha1` header, `body` the bytes the body reader still holds
  when the request is made -/
  | upload (url authorization fileName contentType : String) (size : Int)
      (sha1 : String) (body : List Byte)
  /-- `time.Sleep(seconds * time.Second)` -/
  | sleep (seconds : Nat)
  deriving DecidableEq, Repr

/-- The shared `*B2` value together with the history of backend calls. -/
structure World where
  b2 : B2
  nAuthorize : Nat
  nGetUploadURL : Nat
  nUpload : Nat
  trace : List Call
  deriving DecidableEq, Repr

/-- Outcome of a Go function returning `error`: it returns, or it panics. -/
inductive ErrRet where
  | returned (err : Option GoError)
  | panicked
  deriving DecidableEq, Repr

/-- Outcome of a Go function returning `(string, error)`. -/
inductive StrRet where
  | returned (s : String) (err : Option GoError)
  | panicked
  deriving DecidableEq, Repr

/-- `B2.authorizeAccount`.  The request is built from a constant method and a
constant well-formed URL, so `http.NewRequestWithContext` does not fail. -/
def authorizeAccount (E : Env) (w : World) : ErrRet × World :=
  let w1 : World := { w with
    nAuthorize := w.nAuthorize + 1,
    trace := w.trace ++ [Call.authorizeAccount w.b2.keyID w.b2.keyToken] }
  match E.authorizeAccount w.nAuthorize with
  | .error err =>
    (.returned (some (.wrap "failed to do authorize account request" err)), w1)
  | .response resp =>
    match resp.body with
    | .readError err =>
      (.returned (some (.wrap "failed to read authorize account response body" err)), w1)
    | .data data =>
      if resp.statusCode ≠ 200 then
        (.returned (some (.wrap "failed to authorize account account" (.new data))), w1)
      else
        match E.jsonUnmarshal data with
        | .error err =>
          (.returned (some (.wrap "authorize account json unmarshalling error" err)), w1)
        | .ok o =>
          match assertString o "apiUrl" with
          | none => (.panicked, w1)
          | some apiURL =>
            let w2 : World := { w1 with b2 := { w1.b2 with apiURL := apiURL } }
            match assertString o "authorizationToken" with
            | none => (.panicked, w2)
            | some tok =>
              (.returned none, { w2 with b2 := { w2.b2 with apiToken := tok } })

/-- `B2.getUploadURL`.  `json.Marshal` of a one-entry string map does not
fail, so the panic guarding it is not reachable. -/
def getUploadURL (E : Env) (w : World) : ErrRet × World :=
  match authorizeAccount E w with
  | (.panicked, w0) => (.panicked, w0)
  | (.returned (some err), w0) =>
    (.returned (some (.wrap "failed to authorize account" err)), w0)
  | (.returned none, w0) =>
    let url := w0.b2.apiURL ++ "/b2api/v2/b2_get_upload_url"
    match E.newRequestErr url with
    | some err =>
      (.returned (some (.wrap "failed to make get upload url request" err)), w0)
    | none =>
      let w1 : World := { w0 with
        nGetUploadURL := w0.nGetUploadURL + 1,
        trace := w0.trace ++ [Call.getUploadURL url w0.b2.apiToken w0.b2.bucketID] }
      match E.getUploadURL w0.nGetUploadURL with
      | .error err =>
        (.returned (some (.wrap "failed to do get upload url request" err)), w1)
      | .response resp =>
        match resp.body with
        | .readError err =>
          (.returned (some (.wrap "failed to read get upload url response body" err)), w1)
        | .data data =>
          if resp.statusCode ≠ 200 then
            (.returned (some (.wrap "failed to get upload url" (.new data))), w1)
          else
            match E.jsonUnmarshal data with
            | .error err =>
              (.returned (some (.wrap "get upload url json unmarshalling error" err)), w1)
            | .ok o =>
              match assertString o "uploadUrl" with
              | none => (.panicked, w1)
              | some u =>
                let w2 : World := { w1 with b2 := { w1.b2 with uploadURL := u } }
                match assertString o "authorizationToken" with
                | none => (.panicked, w2)
                | some tok =>
                  (.returned none, { w2 with b2 := { w2.b2 with uploadAuthToken := tok } })

/-- The function `getFileID` applied to the response of an upload call. -/
def getFileID (E : Env) (resp : Response) : StrRet :=
  match resp.body with
  | .readError err => .returned "" (some (.wrap "failed to read upload response body" err))
  | .data data =>
    match E.jsonUnmarshal data with
    | .error err => .returned "" (some (.wrap "upload json unmarshalling error" err))
    | .ok o =>
      match assertString o "fileId" with
      | none => .panicked
      | some id => .returned id none

/-- The arguments of `Upload` that stay fixed over the retries. -/
structure UploadArgs where
  fileName : String
  fileMediaType : String
  hash : String
  size : Int
  deriving DecidableEq, Repr

/-- The local variables of `Upload`, with the unread rest of the reader `r`. -/
structure Locals where
  fileID : String
  succeeded : Bool
  lastError : Option GoError
  r : List Byte
  deriving DecidableEq, Repr

/-- How one pass through the body of the retry loop ends. -/
inductive Step where
  /-- the end of the body is reached, or `continue` -/
  | next (l : Locals)
  /-- a `return` statement inside the loop -/
  | ret (fileID : String) (err : Option GoError)
  | panicked
  deriving DecidableEq, Repr

/-- Both cached target fields set to the empty string (lines 105-106, 122-123). -/
def clearTarget (w : World) : World :=
  { w with b2 := { w.b2 with uploadURL := "", uploadAuthToken := "" } }

/-- Lines 90-148 of `Upload`: build the request, send it, classify the answer. -/
def attempt (E : Env) (a : UploadArgs) (l : Locals) (w : World) : Step × World :=
  match E.newRequestErr w.b2.uploadURL with
  | some err => (.ret "" (some (.wrap "could not create request" err)), w)
  | none =>
    let x := E.upload w.nUpload
    let w1 : World := { w with
      nUpload := w.nUpload + 1,
      trace := w.trace ++ [Call.upload w.b2.uploadURL w.b2.uploadAuthToken
        a.fileName a.fileMediaType a.size a.hash l.r] }
    let l1 : Locals := { l with r := l.r.drop x.consumed }
    match x.result with
    | .error err =>
      (.next { l1 with lastError := some (.wrap "failed to make request" err) },
        clearTarget w1)
    | .response resp =>
      if resp.statusCode = 200 then
        match getFileID E resp with
        | .panicked => (.panicked, w1)
        | .returned _ (some err) =>
          (.ret "" (some (.wrap "failed to get id from response body" err)), w1)
        | .returned id none =>
          (.next { l1 with fileID := id, lastError := none, succeeded := true }, w1)
      else if resp.statusCode = 401 then
        (.next { l1 with lastError := some .errUnauthorized }, clearTarget w1)
      else if resp.statusCode = 408 then
        (.next { l1 with lastError := some .errTimeout },
          { w1 with trace := w1.trace ++ [Call.sleep 1] })
      else if resp.statusCode = 429 then
        (.next { l1 with lastError := some .errTooManyRequests },
          { w1 with trace := w1.trace ++ [Call.sleep 1] })
      else
        let data := match resp.body with
          | .data text => text
          | .readError _ => "could not readall from b2 body"
        (.next { l1 with lastError := some (.new data) }, w1)

/-- The body of the retry loop, lines 83-148. -/
def iteration (E : Env) (a : UploadArgs) (l : Locals) (w : World) : Step × World :=
  if w.b2.uploadURL = "" ∨ w.b2.uploadAuthToken = "" then
    match getUploadURL E w with
    | (.panicked, w1) => (.panicked, w1)
    | (.returned (some err), w1) =>
      (.ret "" (some (.wrap "could not get upload url" err)), w1)
    | (.returned none, w1) => attempt E a l w1
  else attempt E a l w

/-- The loop `for i := 0; i < 5 && !succeeded; i++` with `n` the number of
values of `i` still to come. -/
def retryLoop (E : Env) (a : UploadArgs) : Nat → Locals → World → Step × World
  | 0, l, w => (.next l, w)
  | n + 1, l, w =>
    if l.succeeded then (.next l, w)
    else
      match iteration E a l w with
      | (.next l1, w1) => retryLoop E a n l1 w1
      | out => out

/-- What `Upload` hands back once the loop is left: a `return` or panic from
inside the loop as it is, otherwise lines 151-155. -/
def finish : Step × World → StrRet × World
  | (.panicked, w1) => (.panicked, w1)
  | (.ret id err, w1) => (.returned id err, w1)
  | (.next l, w1) =>
    if !l.succeeded then (.returned "" l.lastError, w1)
    else (.returned l.fileID none, w1)

/-- The initial values of the local variables of `Upload`. -/
def initLocals (r : List Byte) : Locals :=
  { fileID := "", succeeded := false, lastError := none, r := r }

/-- `B2.Upload`. -/
def Upload (E : Env) (w : World) (r : List Byte) (a : UploadArgs) : StrRet × World :=
  finish (retryLoop E a 5 (initLocals r) w)

/-- Whether a call is an upload call. -/
def Call.isUpload : Call → Bool
  | .upload .. => true
  | _ => false

/-- The part of the inbound `*http.Request` that `ServeHTTP` reads: the header
map, the bytes `r.Body` still yields, and the error (if any) that `r.Body`
returns after them in place of `io.EOF`. -/
structure Request where
  header : List (String × List String)
  body : List Byte
  bodyErr : Option GoError
  deriving DecidableEq, Repr

/-- `r.Header.Get(key)` for a canonical key: the first value, or the empty
string when the key has no value. -/
def headerGet (h : List (String × List String)) (key : String) : String :=
  match h.lookup key with
  | some (v :: _) => v
  | _ => ""

/-- What has been written to the `http.ResponseWriter`. -/
structure Written where
  status : Nat
  text : String
  deriving DecidableEq, Repr

/-- The effects of one `ServeHTTP` call: the response written (`none` when the
handler panicked), the bytes of `r.Body` left unread, and the world. -/
structure Served where
  written : Option Written
  unread : List Byte
  world : World
  deriving DecidableEq, Repr

/-- `readAndHashBody`: copies `r.Body` through a tee into `buf` and the hash;
yields the contents of `buf` and the returned `(string, error)`. -/
def readAndHashBody (E : Env) (req : Request) : List Byte × String × Option GoError :=
  match req.bodyErr with
  | some err => (req.body, "", some (.wrap "failed to copy body" err))
  | none => (req.body, E.sha1Hex req.body, none)

/-- `http.Error(w, msg, code)`. -/
def httpError (msg : String) (code : Nat) : Written :=
  { status := code, text := msg ++ "\n" }

/-- `Handler.writeResponse`: the marshalled object is printed, the status is
the implicit 200. -/
def writeResponse (E : Env) (fileID fileName fileMediaType hash : String) (size : Int) :
    Written :=
  { status := 200, text := E.marshalResult fileID fileName fileMediaType hash size }

/-- `Handler.ServeHTTP` with `w` the world holding the handler's `*B2`. -/
def ServeHTTP (E : Env) (w : World) (req : Request) : Served :=
  let fileName := headerGet req.header "Archivist-File-Name"
  let fileMediaType := headerGet req.header "Content-Type"
  if fileName = "" ∨ fileMediaType = "" then
    { written := some (httpError "file name and media type required" 400),
      unread := req.body, world := w }
  else
    match readAndHashBody E req with
    | (_, _, some _) =>
      { written := some (httpError "internal server error" 500), unread := [], world := w }
    | (buf, hash, none) =>
      let size : Int := buf.length
      match Upload E w buf
        { fileName := fileName, fileMediaType := fileMediaType, hash := hash, size := size } with
      | (.panicked, w1) => { written := none, unread := [], world := w1 }
      | (.returned _ (some _), w1) =>
        { written := some (httpError "internal server error" 500), unread := [], world := w1 }
      | (.returned fileID none, w1) =>
        { written := some (writeResponse E fileID fileName fileMediaType hash size),
          unread := [], world := w1 }

/-! Definitions used to state the properties. -/

/-- The error an unanswered or non-200 upload attempt is said to record:
`errUnauthorized` for 401, `errTimeout` for 408, `errTooManyRequests` for 429,
the response body text for other statuses (the fixed text when the body cannot
be read), the wrapped transport error for a transport failure. -/
def specRecordedError : DoResult → GoError
  | .error err => .wrap "failed to make request" err
  | .response resp =>
    if resp.statusCode = 401 then .errUnauthorized
    else if resp.statusCode = 408 then .errTimeout
    else if resp.statusCode = 429 then .errTooManyRequests
    else match resp.body with
      | .data text => .new text
      | .readError _ => .new "could not readall from b2 body"

/-- The number of upload calls in a trace. -/
def uploadCalls (t : List Call) : Nat := t.countP Call.isUpload

/-- The cached target, when there is one, names a URL for which
`http.NewRequestWithContext` builds a request. -/
def Buildable (E : Env) (w : World) : Prop :=
  w.b2.uploadURL = "" ∨ w.b2.uploadAuthToken = "" ∨ E.newRequestErr w.b2.uploadURL = none

/-- Target acquisition succeeds whenever it is called, and the upload URL it
stores is one for which `http.NewRequestWithContext` builds a request. -/
def AcquisitionSucceeds (E : Env) : Prop :=
  ∀ w0, ∃ w1, getUploadURL E w0 = (.returned none, w1) ∧
    E.newRequestErr w1.b2.uploadURL = none

/-- The upload call that `attempt` issues from a given state. -/
def attemptCall (a : UploadArgs) (l : Locals) (w : World) : Call :=
  Call.upload w.b2.uploadURL w.b2.uploadAuthToken a.fileName a.fileMediaType a.size a.hash l.r

/-- An upload call holds a target when its URL and its token are non-empty. -/
def Call.holdsTarget : Call → Prop
  | .upload url auth _ _ _ _ _ => url ≠ "" ∧ auth ≠ ""
  | _ => True

/-! Concrete backends and states on which the code is run. -/

/-- Body of a 200 answer to `b2_authorize_account`. -/
def authBody : String :=
  "\x7b\"apiUrl\":\"https://api.test\",\"authorizationToken\":\"acct\"\x7d"

/-- Body of a 200 answer to `b2_get_upload_url`. -/
def targetBody : String :=
  "\x7b\"uploadUrl\":\"https://pod.test/up\",\"authorizationToken\":\"tok\"\x7d"

/-- Body of a 200 answer to `b2_get_upload_url` naming another pod. -/
def targetBody2 : String :=
  "\x7b\"uploadUrl\":\"https://pod2.test/up\",\"authorizationToken\":\"tok2\"\x7d"

/-- Body of a 200 answer to `b2_get_upload_url` whose token is the empty string. -/
def emptyTokenBody : String :=
  "\x7b\"uploadUrl\":\"https://pod.test/up\",\"authorizationToken\":\"\"\x7d"

/-- Body of a 200 answer to `b2_get_upload_url` whose URL `url.Parse` rejects. -/
def badURLBody : String :=
  "\x7b\"uploadUrl\":\":\",\"authorizationToken\":\"tok\"\x7d"

/-- Body of a 200 answer to an upload call. -/
def fileBody : String := "\x7b\"fileId\":\"f1\"\x7d"

/-- The decoding of the bodies above; every other text is rejected. -/
def demoUnmarshal (s : String) : Except GoError JObject :=
  if s = authBody then
    .ok [("apiUrl", .string "https://api.test"), ("authorizationToken", .string "acct")]
  else if s = targetBody then
    .ok [("uploadUrl", .string "https://pod.test/up"), ("authorizationToken", .string "tok")]
  else if s = targetBody2 then
    .ok [("uploadUrl", .string "https://pod2.test/up"), ("authorizationToken", .string "tok2")]
  else if s = emptyTokenBody then
    .ok [("uploadUrl", .string "https://pod.test/up"), ("authorizationToken", .string "")]
  else if s = badURLBody then
    .ok [("uploadUrl", .string ":"), ("authorizationToken", .string "tok")]
  else if s = fileBody then
    .ok [("fileId", .string "f1")]
  else .error (.lib "invalid character")

/-- A backend that authorizes, hands out a target, answers the first four
upload calls 408, 429, 408, 429 and the later ones 200.  Every URL it names is
well formed, so the request builder accepts all of them; the digest is the
SHA-1 of `hello`, the only body used; the marshalled result is cut down to the
file id. -/
def envFifth : Env where
  authorizeAccount := fun _ => .response ⟨200, .data authBody⟩
  getUploadURL := fun _ => .response ⟨200, .data targetBody⟩
  upload := fun i =>
    if i = 0 ∨ i = 2 then ⟨5, .response ⟨408, .data ""⟩⟩
    else if i = 1 ∨ i = 3 then ⟨0, .response ⟨429, .data ""⟩⟩
    else ⟨0, .response ⟨200, .data fileBody⟩⟩
  jsonUnmarshal := demoUnmarshal
  newRequestErr := fun _ => none
  sha1Hex := fun _ => "aaf4c61ddcc5e8a2dabede0f3b482cd9aea9434d"
  marshalResult := fun id _ _ _ _ => id

/-- A backend that never answers an upload call with 200: a transport failure,
then 401, 408, 429, and 503 from the fifth call on. -/
def envNever : Env :=
  { envFifth with
    upload := fun i =>
      if i = 0 then ⟨0, .error (.lib "connection reset")⟩
      else if i = 1 then ⟨5, .response ⟨401, .data ""⟩⟩
      else if i = 2 then ⟨0, .response ⟨408, .data ""⟩⟩
      else if i = 3 then ⟨0, .response ⟨429, .data ""⟩⟩
      else ⟨0, .response ⟨503, .data "service unavailable"⟩⟩ }

/-- A backend whose upload URL is `:`, which `http.NewRequestWithContext`
rejects; upload calls, were any made, would be answered 408. -/
def envBadURL : Env :=
  { envFifth with
    getUploadURL := fun _ => .response ⟨200, .data badURLBody⟩
    upload := fun _ => ⟨0, .response ⟨408, .data ""⟩⟩
    newRequestErr := fun u => if u = ":" then some (.lib "missing protocol scheme") else none }

/-- A backend whose first target carries an empty token and whose later targets
name another pod; the first upload call is answered 408, the later ones 200. -/
def envEmptyToken : Env :=
  { envFifth with
    getUploadURL := fun i =>
      if i = 0 then .response ⟨200, .data emptyTokenBody⟩
      else .response ⟨200, .data targetBody2⟩
    upload := fun i =>
      if i = 0 then ⟨0, .response ⟨408, .data ""⟩⟩
      else ⟨0, .response ⟨200, .data fileBody⟩⟩ }

/-- A backend that rejects the first upload call with 401 and hands out another
target on the second acquisition. -/
def envRotate : Env :=
  { envFifth with
    getUploadURL := fun i =>
      if i = 0 then .response ⟨200, .data targetBody⟩
      else .response ⟨200, .data targetBody2⟩
    upload := fun i =>
      if i = 0 then ⟨0, .response ⟨401, .data ""⟩⟩
      else ⟨0, .response ⟨200, .data fileBody⟩⟩ }

/-- A backend that refuses the account credentials. -/
def envAuthDown : Env :=
  { envFifth with
    authorizeAccount := fun _ => .response ⟨401, .data "bad key"⟩ }

/-- A backend that answers the first upload call 408 after reading the whole
body, and the second one 200. -/
def envRetryOnce : Env :=
  { envFifth with
    upload := fun i =>
      if i = 0 then ⟨5, .response ⟨408, .data ""⟩⟩
      else ⟨0, .response ⟨200, .data fileBody⟩⟩ }

/-- A `B2` just built by `NewB2` and not yet used. -/
def freshWorld : World :=
  { b2 := ⟨"k1", "t1", "b1", "", "", "", ""⟩, nAuthorize := 0, nGetUploadURL := 0,
    nUpload := 0, trace := [] }

/-- A `B2` holding a session and a target, as `getUploadURL` leaves it after
the first acquisition from `envFifth`. -/
def readyWorld : World :=
  { b2 := ⟨"k1", "t1", "b1", "https://api.test", "acct", "tok", "https://pod.test/up"⟩,
    nAuthorize := 1, nGetUploadURL := 1, nUpload := 0,
    trace := [Call.authorizeAccount "k1" "t1",
      Call.getUploadURL "https://api.test/b2api/v2/b2_get_upload_url" "acct" "b1"] }

/-- A `B2` holding a session but no target. -/
def sessionWorld : World :=
  { b2 := ⟨"k1", "t1", "b1", "https://api.test", "old", "", ""⟩, nAuthorize := 0,
    nGetUploadURL := 0, nUpload := 0, trace := [] }

/-- The bytes of `hello`. -/
def hello : List Byte := [104, 101, 108, 108, 111]

/-- The arguments `ServeHTTP` passes for the file `a.txt` holding `hello`. -/
def helloArgs : UploadArgs :=
  ⟨"a.txt", "text/plain", "aaf4c61ddcc5e8a2dabede0f3b482cd9aea9434d", 5⟩

/-- An inbound request for `a.txt` holding `hello`. -/
def helloRequest : Request :=
  { header := [("Archivist-File-Name", ["a.txt"]), ("Content-Type", ["text/plain"])],
    body := hello, bodyErr := none }

/-- An inbound request with a body but no headers. -/
def bareRequest : Request := { header := [], body := hello, bodyErr := none }

/-- The upload call made for `a.txt` from `readyWorld` with the whole body. -/
def helloCall : Call :=
  Call.upload "https://pod.test/up" "tok" "a.txt" "text/plain" 5
    "aaf4c61ddcc5e8a2dabede0f3b482cd9aea9434d" hello

/-- The local variables after a first attempt answered 401 that read nothing. -/
def rejectedLocals : Locals :=
  { fileID := "", succeeded := false, lastError := some .errUnauthorized, r := hello }

/-- The state `readyWorld` turns into when its first attempt is answered 401. -/
def rejectedWorld : World :=
  { b2 := ⟨"k1", "t1", "b1", "https://api.test", "acct", "", ""⟩,
    nAuthorize := 1, nGetUploadURL := 1, nUpload := 1,
    trace := readyWorld.trace ++ [helloCall] }

/-- The state `rejectedWorld` turns into when `envRotate` hands out its second
target. -/
def reacquiredWorld : World :=
  { b2 := ⟨"k1", "t1", "b1", "https://api.test", "acct", "tok2", "https://pod2.test/up"⟩,
    nAuthorize := 2, nGetUploadURL := 2, nUpload := 1,
    trace := rejectedWorld.trace ++ [Call.authorizeAccount "k1" "t1",
      Call.getUploadURL "https://api.test/b2api/v2/b2_get_upload_url" "acct" "b1"] }

/-- The local variables after a first attempt answered 408 that read the whole
body. -/
def delayedLocals : Locals :=
  { fileID := "", succeeded := false, lastError := some .errTimeout, r := [] }

/-- The state `readyWorld` turns into when its first attempt is answered 408. -/
def delayedWorld : World :=
  { readyWorld with nUpload := 1, trace := readyWorld.trace ++ [helloCall, Call.sleep 1] }

/-- The state `freshWorld` turns into when the account credentials are refused. -/
def refusedWorld : World :=
  { freshWorld with nAuthorize := 1, trace := [Call.authorizeAccount "k1" "t1"] }

/-! Facts about the single functions. -/

/-- What `authorizeAccount` leaves alone whatever its outcome. -/
theorem authorizeAccount_frame (E : Env) (w : World) :
    (authorizeAccount E w).2.nUpload = w.nUpload ∧
    (authorizeAccount E w).2.nGetUploadURL = w.nGetUploadURL ∧
    (authorizeAccount E w).2.nAuthorize = w.nAuthorize + 1 ∧
    (authorizeAccount E w).2.trace = w.trace ++ [Call.authorizeAccount w.b2.keyID w.b2.keyToken] ∧
    (authorizeAccount E w).2.b2.uploadURL = w.b2.uploadURL ∧
    (authorizeAccount E w).2.b2.uploadAuthToken = w.b2.uploadAuthToken ∧
    (authorizeAccount E w).2.b2.keyID = w.b2.keyID ∧
    (authorizeAccount E w).2.b2.keyToken = w.b2.keyToken ∧
    (authorizeAccount E w).2.b2.bucketID = w.b2.bucketID := by
  unfold authorizeAccount
  split
  · simp
  · split
    · simp
    · split
      · simp
      · split
        · simp
        · split
          · simp
          · split <;> simp

/-- A successful `authorizeAccount` read a 200 answer holding both strings and
stored exactly them. -/
theorem authorizeAccount_ok_inv (E : Env) (w w1 : World)
    (h : authorizeAccount E w = (.returned none, w1)) :
    ∃ data o u t, E.authorizeAccount w.nAuthorize = .response ⟨200, .data data⟩ ∧
      E.jsonUnmarshal data = .ok o ∧ assertString o "apiUrl" = some u ∧
      assertString o "authorizationToken" = some t ∧
      w1 = { w with
        nAuthorize := w.nAuthorize + 1,
        trace := w.trace ++ [Call.authorizeAccount w.b2.keyID w.b2.keyToken],
        b2 := { w.b2 with apiURL := u, apiToken := t } } := by
  unfold authorizeAccount at h
  split at h
  · simp at h
  · rename_i resp hresp
    split at h
    · simp at h
    · rename_i data hbody
      split at h
      · simp at h
      · rename_i hstatus
        split at h
        · simp at h
        · rename_i o ho
          split at h
          · simp at h
          · rename_i u hu
            split at h
            · simp at h
            · rename_i t ht
              simp only [Prod.mk.injEq, true_and] at h
              refine ⟨data, o, u, t, ?_, ho, hu, ht, h.symm⟩
              rw [hresp]
              obtain ⟨sc, bd⟩ := resp
              simp only [ne_eq, Decidable.not_not] at hstatus
              simp at hbody hstatus
              simp [hbody, hstatus]

/-- A successful `getUploadURL` authorized first, read a 200 answer holding both
strings and stored exactly them. -/
theorem getUploadURL_ok_inv (E : Env) (w w1 : World)
    (h : getUploadURL E w = (.returned none, w1)) :
    ∃ wa data o u t, authorizeAccount E w = (.returned none, wa) ∧
      E.newRequestErr (wa.b2.apiURL ++ "/b2api/v2/b2_get_upload_url") = none ∧
      E.getUploadURL wa.nGetUploadURL = .response ⟨200, .data data⟩ ∧
      E.jsonUnmarshal data = .ok o ∧ assertString o "uploadUrl" = some u ∧
      assertString o "authorizationToken" = some t ∧
      w1 = { wa with
        nGetUploadURL := wa.nGetUploadURL + 1,
        trace := wa.trace ++ [Call.getUploadURL
          (wa.b2.apiURL ++ "/b2api/v2/b2_get_upload_url") wa.b2.apiToken wa.b2.bucketID],
        b2 := { wa.b2 with uploadURL := u, uploadAuthToken := t } } := by
  unfold getUploadURL at h
  split at h
  · simp at h
  · simp at h
  · rename_i wa hwa
    simp only at h
    split at h
    · simp at h
    · rename_i hnr
      split at h
      · simp at h
      · rename_i resp hresp
        split at h
        · simp at h
        · rename_i data hbody
          split at h
          · simp at h
          · rename_i hstatus
            split at h
            · simp at h
            · rename_i o ho
              split at h
              · simp at h
              · rename_i u hu
                split at h
                · simp at h
                · rename_i t ht
                  simp only [Prod.mk.injEq, true_and] at h
                  refine ⟨wa, data, o, u, t, hwa, hnr, ?_, ho, hu, ht, h.symm⟩
                  rw [hresp]
                  obtain ⟨sc, bd⟩ := resp
                  simp at hbody hstatus
                  simp [hbody, hstatus]

/-- What `getUploadURL` leaves alone whatever its outcome: it issues no upload
call, and the first call it issues is the account authorization. -/
theorem getUploadURL_frame (E : Env) (w : World) :
    (getUploadURL E w).2.nUpload = w.nUpload ∧
    (getUploadURL E w).2.nAuthorize = w.nAuthorize + 1 ∧
    ∃ ext, (getUploadURL E w).2.trace =
        w.trace ++ Call.authorizeAccount w.b2.keyID w.b2.keyToken :: ext ∧
      ∀ c ∈ ext, c.isUpload = false := by
  have hf := authorizeAccount_frame E w
  unfold getUploadURL
  generalize authorizeAccount E w = p at hf
  obtain ⟨r, w0⟩ := p
  obtain ⟨h1, h2, h3, h4, -⟩ := hf
  simp only at h1 h2 h3 h4
  have base : ∃ ext, w0.trace = w.trace ++ Call.authorizeAccount w.b2.keyID w.b2.keyToken :: ext ∧
      ∀ c ∈ ext, c.isUpload = false := ⟨[], by simp [h4], by simp⟩
  have ext1 : ∀ u t b, ∃ ext, w0.trace ++ [Call.getUploadURL u t b] =
      w.trace ++ Call.authorizeAccount w.b2.keyID w.b2.keyToken :: ext ∧
      ∀ c ∈ ext, c.isUpload = false := fun u t b =>
    ⟨[Call.getUploadURL u t b], by simp [h4], by simp [Call.isUpload]⟩
  split
  · rename_i heq; simp only [Prod.mk.injEq] at heq; obtain ⟨-, rfl⟩ := heq
    exact ⟨h1, h3, base⟩
  · rename_i heq; simp only [Prod.mk.injEq] at heq; obtain ⟨-, rfl⟩ := heq
    exact ⟨h1, h3, base⟩
  · rename_i heq; simp only [Prod.mk.injEq] at heq; obtain ⟨-, rfl⟩ := heq
    simp only
    split
    · exact ⟨h1, h3, base⟩
    · split
      · exact ⟨h1, h3, ext1 _ _ _⟩
      · split
        · exact ⟨h1, h3, ext1 _ _ _⟩
        · split
          · exact ⟨h1, h3, ext1 _ _ _⟩
          · split
            · exact ⟨h1, h3, ext1 _ _ _⟩
            · split
              · exact ⟨h1, h3, ext1 _ _ _⟩
              · split
                · exact ⟨h1, h3, ext1 _ _ _⟩
                · exact ⟨h1, h3, ext1 _ _ _⟩

/-- An attempt whose request is built and whose answer is not a 200 response
falls through to the next pass with the error recorded; it adds one upload call
and at most a sleep to the trace. -/
theorem attempt_not200 (E : Env) (a : UploadArgs) (l : Locals) (w : World)
    (hreq : E.newRequestErr w.b2.uploadURL = none)
    (hno : ∀ resp, (E.upload w.nUpload).result = .response resp → resp.statusCode ≠ 200) :
    ∃ l1 w1, attempt E a l w = (.next l1, w1) ∧
      l1.succeeded = l.succeeded ∧
      l1.lastError = some (specRecordedError (E.upload w.nUpload).result) ∧
      l1.r = l.r.drop (E.upload w.nUpload).consumed ∧
      w1.nUpload = w.nUpload + 1 ∧
      (w1.b2 = w.b2 ∨ w1.b2.uploadURL = "") ∧
      ∃ ext, w1.trace = w.trace ++ Call.upload w.b2.uploadURL w.b2.uploadAuthToken
          a.fileName a.fileMediaType a.size a.hash l.r :: ext ∧
        ∀ c ∈ ext, c.isUpload = false := by
  unfold attempt
  rw [hreq]
  simp only
  cases hres : (E.upload w.nUpload).result with
  | error err =>
    exact ⟨_, _, rfl, rfl, by simp [specRecordedError], rfl, rfl, Or.inr rfl, [],
      by simp [clearTarget], by simp⟩
  | response resp =>
    have h200 := hno resp hres
    simp only [h200, if_false]
    by_cases h401 : resp.statusCode = 401
    · simp only [h401, if_true]
      exact ⟨_, _, rfl, rfl, by simp [specRecordedError, h401], rfl, rfl, Or.inr rfl, [],
        by simp [clearTarget], by simp⟩
    · simp only [h401, if_false]
      by_cases h408 : resp.statusCode = 408
      · simp only [h408, if_true]
        exact ⟨_, _, rfl, rfl, by simp [specRecordedError, h408], rfl, rfl, Or.inl rfl,
          [Call.sleep 1], by simp, by simp [Call.isUpload]⟩
      · simp only [h408, if_false]
        by_cases h429 : resp.statusCode = 429
        · simp only [h429, if_true]
          exact ⟨_, _, rfl, rfl, by simp [specRecordedError, h429], rfl, rfl, Or.inl rfl,
            [Call.sleep 1], by simp, by simp [Call.isUpload]⟩
        · simp only [h429, if_false]
          refine ⟨_, _, rfl, rfl, ?_, rfl, rfl, Or.inl rfl, [], by simp, by simp⟩
          simp only [specRecordedError, h401, h408, h429, if_false]
          cases resp.body <;> rfl

/-- A list of calls none of which is an upload counts zero upload calls. -/
theorem uploadCalls_eq_zero (ext : List Call) (h : ∀ c ∈ ext, c.isUpload = false) :
    ext.countP Call.isUpload = 0 := by
  rw [List.countP_eq_zero]
  intro c hc
  simp [h c hc]

/-- With target acquisition always succeeding, a pass whose upload call is not
answered by a 200 response ends in the next pass, having made exactly one
upload call. -/
theorem iteration_not200 (E : Env) (a : UploadArgs) (l : Locals) (w : World)
    (hacq : AcquisitionSucceeds E) (hb : Buildable E w)
    (hno : ∀ resp, (E.upload w.nUpload).result = .response resp → resp.statusCode ≠ 200) :
    ∃ l1 w1, iteration E a l w = (.next l1, w1) ∧
      l1.succeeded = l.succeeded ∧
      l1.lastError = some (specRecordedError (E.upload w.nUpload).result) ∧
      w1.nUpload = w.nUpload + 1 ∧
      uploadCalls w1.trace = uploadCalls w.trace + 1 ∧
      Buildable E w1 := by
  have keep : ∀ (w0 w1 : World), E.newRequestErr w0.b2.uploadURL = none →
      (w1.b2 = w0.b2 ∨ w1.b2.uploadURL = "") → Buildable E w1 := by
    intro w0 w1 h0 h
    rcases h with h | h
    · exact Or.inr (Or.inr (by rw [h]; exact h0))
    · exact Or.inl h
  unfold iteration
  split
  · obtain ⟨wa, hwa, hra⟩ := hacq w
    obtain ⟨hn, -, ext0, ht0, hext0⟩ := getUploadURL_frame E w
    rw [hwa] at hn ht0
    simp only at hn ht0
    rw [hwa]
    simp only
    obtain ⟨l1, w1, h1, h2, h3, -, h5, h6, ext, ht, hext⟩ :=
      attempt_not200 E a l wa hra (by rw [hn]; exact hno)
    refine ⟨l1, w1, h1, h2, by rw [h3, hn], by rw [h5, hn], ?_, keep wa w1 hra h6⟩
    rw [ht, ht0]
    simp only [uploadCalls, List.countP_append, List.countP_cons, Call.isUpload]
    rw [uploadCalls_eq_zero _ hext0, uploadCalls_eq_zero _ hext]
    simp
  · rename_i hg
    simp only [not_or] at hg
    have hreq : E.newRequestErr w.b2.uploadURL = none := by
      rcases hb with h | h | h
      · exact absurd h hg.1
      · exact absurd h hg.2
      · exact h
    obtain ⟨l1, w1, h1, h2, h3, -, h5, h6, ext, ht, hext⟩ :=
      attempt_not200 E a l w hreq hno
    refine ⟨l1, w1, h1, h2, h3, h5, ?_, keep w w1 hreq h6⟩
    rw [ht]
    simp only [uploadCalls, List.countP_append, List.countP_cons, Call.isUpload]
    rw [uploadCalls_eq_zero _ hext]
    simp

/-- With target acquisition always succeeding, `n` passes none of which is
answered by a 200 response are all run, make `n` upload calls, and leave the
error of the last one recorded. -/
theorem retryLoop_not200 (E : Env) (a : UploadArgs)
    (hacq : AcquisitionSucceeds E) (m : Nat) :
    ∀ (n : Nat) (l : Locals) (w : World), l.succeeded = false → Buildable E w →
      (∀ i, i < n → ∀ resp, (E.upload (w.nUpload + i)).result = .response resp →
        resp.statusCode ≠ 200) →
      ∃ l1 w1, retryLoop E a (n + m) l w = retryLoop E a m l1 w1 ∧
        l1.succeeded = false ∧
        w1.nUpload = w.nUpload + n ∧
        uploadCalls w1.trace = uploadCalls w.trace + n ∧
        Buildable E w1 ∧
        (n = 0 → l1 = l) ∧
        ∀ k, n = k + 1 →
          l1.lastError = some (specRecordedError (E.upload (w.nUpload + k)).result) := by
  intro n
  induction n with
  | zero =>
    intro l w hl hb _
    exact ⟨l, w, by simp, hl, rfl, rfl, hb, fun _ => rfl, by intro k hk; omega⟩
  | succ n ih =>
    intro l w hl hb hno
    obtain ⟨l1, w1, h1, h2, h3, h4, h5, h6⟩ :=
      iteration_not200 E a l w hacq hb (by simpa using hno 0 (by omega))
    have hstep : retryLoop E a (n + 1 + m) l w = retryLoop E a (n + m) l1 w1 := by
      have : n + 1 + m = (n + m) + 1 := by omega
      rw [this, retryLoop]
      simp [hl, h1]
    obtain ⟨l2, w2, g1, g2, g3, g4, g7, g6, g5⟩ := ih l1 w1 (by rw [h2, hl]) h6 (by
      intro i hi resp hr
      have := hno (i + 1) (by omega) resp
      rw [h4] at hr
      exact this (by rw [← hr]; congr 2; omega))
    refine ⟨l2, w2, by rw [hstep, g1], g2, by rw [g3, h4]; omega, by rw [g4, h5]; omega, g7,
      by intro h0; omega, ?_⟩
    intro k hk
    cases n with
    | zero =>
      have hk0 : k = 0 := by omega
      subst hk0
      rw [g6 rfl, h3]
      rfl
    | succ n' =>
      have hk1 : k = n' + 1 := by omega
      subst hk1
      have e : w.nUpload + 1 + n' = w.nUpload + (n' + 1) := by omega
      rw [g5 n' rfl, h4, e]

/-- An attempt whose request is built and which is answered 200 with a body
whose `fileId` is a string sets `succeeded` and `fileID`. -/
theorem attempt_200 (E : Env) (a : UploadArgs) (l : Locals) (w : World)
    (data : String) (o : JObject) (fid : String)
    (hreq : E.newRequestErr w.b2.uploadURL = none)
    (h200 : (E.upload w.nUpload).result = .response ⟨200, .data data⟩)
    (hjson : E.jsonUnmarshal data = .ok o) (hid : assertString o "fileId" = some fid) :
    ∃ l1 w1, attempt E a l w = (.next l1, w1) ∧ l1.succeeded = true ∧ l1.fileID = fid := by
  unfold attempt
  rw [hreq]
  simp only [h200, getFileID, hjson, hid, if_true]
  exact ⟨_, _, rfl, rfl, rfl⟩

/-- Whatever the answer, `attempt` adds to the trace at most its own upload
call and a sleep; when the request is built the upload call is added first. -/
theorem attempt_trace (E : Env) (a : UploadArgs) (l : Locals) (w : World) :
    ∃ ext, (attempt E a l w).2.trace = w.trace ++ ext ∧
      (∀ c ∈ ext, c = attemptCall a l w ∨ c = Call.sleep 1) ∧
      (E.newRequestErr w.b2.uploadURL = none → ∃ rest, ext = attemptCall a l w :: rest) := by
  unfold attempt
  split
  · rename_i err herr
    exact ⟨[], by simp, by simp, by intro h; rw [h] at herr; cases herr⟩
  · simp only
    split
    · exact ⟨[attemptCall a l w], by simp [clearTarget, attemptCall], by simp,
        fun _ => ⟨[], rfl⟩⟩
    · split
      · split
        · exact ⟨[attemptCall a l w], by simp [attemptCall], by simp, fun _ => ⟨[], rfl⟩⟩
        · exact ⟨[attemptCall a l w], by simp [attemptCall], by simp, fun _ => ⟨[], rfl⟩⟩
        · exact ⟨[attemptCall a l w], by simp [attemptCall], by simp, fun _ => ⟨[], rfl⟩⟩
      · split
        · exact ⟨[attemptCall a l w], by simp [clearTarget, attemptCall], by simp,
            fun _ => ⟨[], rfl⟩⟩
        · split
          · exact ⟨[attemptCall a l w, Call.sleep 1], by simp [attemptCall], by simp,
              fun _ => ⟨[Call.sleep 1], rfl⟩⟩
          · split
            · exact ⟨[attemptCall a l w, Call.sleep 1], by simp [attemptCall], by simp,
                fun _ => ⟨[Call.sleep 1], rfl⟩⟩
            · exact ⟨[attemptCall a l w], by simp [attemptCall], by simp,
                fun _ => ⟨[], rfl⟩⟩

/-- An attempt that goes on to the next pass after a 401 answer cleared both
target fields, recorded `errUnauthorized` and left `succeeded` as it was. -/
theorem attempt_401 (E : Env) (a : UploadArgs) (l l1 : Locals) (w w1 : World)
    (resp : Response)
    (h : attempt E a l w = (.next l1, w1))
    (hres : (E.upload w.nUpload).result = .response resp) (h401 : resp.statusCode = 401) :
    w1.b2.uploadURL = "" ∧ w1.b2.uploadAuthToken = "" ∧
      l1.lastError = some .errUnauthorized ∧ l1.succeeded = l.succeeded ∧
      l1.r = l.r.drop (E.upload w.nUpload).consumed := by
  unfold attempt at h
  split at h
  · simp at h
  · simp only [hres, h401] at h
    simp only [show ¬ ((401 : Nat) = 200) by decide, if_false, if_true, Prod.mk.injEq,
      Step.next.injEq] at h
    obtain ⟨rfl, rfl⟩ := h
    simp [clearTarget]

/-- An attempt whose request is built and which is answered 408 or 429 leaves
the `B2` fields and both refresh counters as they are, and adds its upload call
and one sleep to the trace. -/
theorem attempt_408_429 (E : Env) (a : UploadArgs) (l : Locals) (w : World)
    (resp : Response)
    (hreq : E.newRequestErr w.b2.uploadURL = none)
    (hres : (E.upload w.nUpload).result = .response resp)
    (hst : resp.statusCode = 408 ∨ resp.statusCode = 429) :
    ∃ l1 w1, attempt E a l w = (.next l1, w1) ∧ w1.b2 = w.b2 ∧
      w1.nAuthorize = w.nAuthorize ∧ w1.nGetUploadURL = w.nGetUploadURL ∧
      w1.trace = w.trace ++ [attemptCall a l w, Call.sleep 1] ∧
      l1.succeeded = l.succeeded ∧ l1.r = l.r.drop (E.upload w.nUpload).consumed := by
  unfold attempt
  rw [hreq]
  simp only [hres]
  rcases hst with h | h
  · simp only [h, show ¬ ((408 : Nat) = 200) by decide, show ¬ ((408 : Nat) = 401) by decide,
      if_false, if_true]
    exact ⟨_, _, rfl, rfl, rfl, rfl, by simp [attemptCall], rfl, rfl⟩
  · simp only [h, show ¬ ((429 : Nat) = 200) by decide, show ¬ ((429 : Nat) = 401) by decide,
      show ¬ ((429 : Nat) = 408) by decide, if_false, if_true]
    exact ⟨_, _, rfl, rfl, rfl, rfl, by simp [attemptCall], rfl, rfl⟩

/-- A call that is no upload call holds a target trivially. -/
theorem holdsTarget_of_not_upload (c : Call) (h : c.isUpload = false) : c.holdsTarget := by
  cases c <;> simp [Call.isUpload, Call.holdsTarget] at h ⊢

/-- `attempt` makes no authorization and no target-acquisition call. -/
theorem attempt_counters (E : Env) (a : UploadArgs) (l : Locals) (w : World) :
    (attempt E a l w).2.nAuthorize = w.nAuthorize ∧
      (attempt E a l w).2.nGetUploadURL = w.nGetUploadURL := by
  unfold attempt
  split
  · simp
  · simp only
    split
    · simp [clearTarget]
    · split
      · split <;> simp
      · split
        · simp [clearTarget]
        · split
          · simp
          · split <;> simp

/-- When every 200 answer to get-upload-url carries non-empty strings, each
call one pass of the loop adds to the trace holds a target. -/
theorem iteration_holdsTarget (E : Env) (a : UploadArgs) (l : Locals) (w : World)
    (hne : ∀ i data o u t, E.getUploadURL i = .response ⟨200, .data data⟩ →
      E.jsonUnmarshal data = .ok o → assertString o "uploadUrl" = some u →
      assertString o "authorizationToken" = some t → u ≠ "" ∧ t ≠ "") :
    ∃ ext, (iteration E a l w).2.trace = w.trace ++ ext ∧ ∀ c ∈ ext, c.holdsTarget := by
  have key : ∀ w0 : World, w0.b2.uploadURL ≠ "" → w0.b2.uploadAuthToken ≠ "" →
      ∃ ext, (attempt E a l w0).2.trace = w0.trace ++ ext ∧ ∀ c ∈ ext, c.holdsTarget := by
    intro w0 hu ht
    obtain ⟨ext, h1, h2, -⟩ := attempt_trace E a l w0
    refine ⟨ext, h1, ?_⟩
    intro c hc
    rcases h2 c hc with rfl | rfl
    · exact ⟨hu, ht⟩
    · trivial
  unfold iteration
  split
  · obtain ⟨-, -, ext0, ht0, hext0⟩ := getUploadURL_frame E w
    cases hg : getUploadURL E w with
    | mk res w1 =>
      rw [hg] at ht0
      simp only at ht0
      have hpre : ∀ c ∈ Call.authorizeAccount w.b2.keyID w.b2.keyToken :: ext0,
          c.holdsTarget := by
        intro c hc
        rcases List.mem_cons.mp hc with rfl | hc
        · trivial
        · exact holdsTarget_of_not_upload c (hext0 c hc)
      cases res with
      | panicked => exact ⟨_, ht0, hpre⟩
      | returned err =>
        cases err with
        | some e => exact ⟨_, ht0, hpre⟩
        | none =>
          obtain ⟨wa, data, o, u, t, -, -, h3, h4, h5, h6, h7⟩ := getUploadURL_ok_inv E w w1 hg
          obtain ⟨hu, ht⟩ := hne _ data o u t h3 h4 h5 h6
          obtain ⟨ext, e1, e2⟩ := key w1 (by rw [h7]; exact hu) (by rw [h7]; exact ht)
          refine ⟨(Call.authorizeAccount w.b2.keyID w.b2.keyToken :: ext0) ++ ext, ?_, ?_⟩
          · simp only
            rw [e1, ht0]
            simp
          · intro c hc
            rcases List.mem_append.mp hc with hc | hc
            · exact hpre c hc
            · exact e2 c hc
  · rename_i hg
    simp only [not_or] at hg
    exact key w hg.1 hg.2

/-- The same for any number of passes. -/
theorem retryLoop_holdsTarget (E : Env) (a : UploadArgs)
    (hne : ∀ i data o u t, E.getUploadURL i = .response ⟨200, .data data⟩ →
      E.jsonUnmarshal data = .ok o → assertString o "uploadUrl" = some u →
      assertString o "authorizationToken" = some t → u ≠ "" ∧ t ≠ "") :
    ∀ (n : Nat) (l : Locals) (w : World),
      ∃ ext, (retryLoop E a n l w).2.trace = w.trace ++ ext ∧ ∀ c ∈ ext, c.holdsTarget := by
  intro n
  induction n with
  | zero => intro l w; exact ⟨[], by simp [retryLoop], by simp⟩
  | succ n ih =>
    intro l w
    rw [retryLoop]
    split
    · exact ⟨[], by simp, by simp⟩
    · obtain ⟨ext, h1, h2⟩ := iteration_holdsTarget E a l w hne
      cases hi : iteration E a l w with
      | mk s w1 =>
        rw [hi] at h1
        simp only at h1
        cases s with
        | next l1 =>
          obtain ⟨ext2, g1, g2⟩ := ih l1 w1
          refine ⟨ext ++ ext2, ?_, ?_⟩
          · simp only
            rw [g1, h1]
            simp
          · intro c hc
            rcases List.mem_append.mp hc with hc | hc
            · exact h2 c hc
            · exact g2 c hc
        | ret id err => exact ⟨ext, h1, h2⟩
        | panicked => exact ⟨ext, h1, h2⟩

/-- The code after the loop leaves the world as the loop left it. -/
theorem finish_world (out : Step × World) : (finish out).2 = out.2 := by
  obtain ⟨s, w⟩ := out
  cases s with
  | next l => simp only [finish]; split <;> rfl
  | ret id err => rfl
  | panicked => rfl

/-! The properties of `Upload`, `getUploadURL` and `ServeHTTP`. -/

/-- C1: with target acquisition succeeding whenever it is called (its upload
URL being one a request can be built for, so that the attempts are made), if the
next four upload calls are answered 408 or 429 in any mix and the fifth is
answered 200 with a body whose `fileId` is a string, `Upload` returns that file
id together with a nil error. -/
theorem Upload_fifth_attempt_succeeds (E : Env) (w : World) (r : List Byte) (a : UploadArgs)
    (data : String) (o : JObject) (fid : String)
    (hacq : AcquisitionSucceeds E) (hb : Buildable E w)
    (h4 : ∀ i, i < 4 → ∃ resp, (E.upload (w.nUpload + i)).result = .response resp ∧
      (resp.statusCode = 408 ∨ resp.statusCode = 429))
    (h5 : (E.upload (w.nUpload + 4)).result = .response ⟨200, .data data⟩)
    (hjson : E.jsonUnmarshal data = .ok o) (hid : assertString o "fileId" = some fid) :
    (Upload E w r a).1 = .returned fid none := by
  obtain ⟨l1, w1, h1, h2, h3, -, hb1, -, -⟩ := retryLoop_not200 E a hacq 1 4 (initLocals r) w
    rfl hb (by
      intro i hi resp hr
      obtain ⟨resp0, hr0, hs⟩ := h4 i hi
      rw [hr0] at hr
      cases hr
      omega)
  have hit : ∃ l2 w2, iteration E a l1 w1 = (.next l2, w2) ∧ l2.succeeded = true ∧
      l2.fileID = fid := by
    unfold iteration
    split
    · obtain ⟨wa, hwa, hra⟩ := hacq w1
      have hn := (getUploadURL_frame E w1).1
      rw [hwa] at hn
      rw [hwa]
      exact attempt_200 E a l1 wa data o fid hra (by rw [hn, h3]; exact h5) hjson hid
    · rename_i hg
      simp only [not_or] at hg
      have hreq : E.newRequestErr w1.b2.uploadURL = none := by
        rcases hb1 with h | h | h
        · exact absurd h hg.1
        · exact absurd h hg.2
        · exact h
      exact attempt_200 E a l1 w1 data o fid hreq (by rw [h3]; exact h5) hjson hid
  obtain ⟨l2, w2, g1, g2, g3⟩ := hit
  unfold Upload
  rw [show (5 : Nat) = 4 + 1 from rfl, h1]
  simp [retryLoop, h2, g1, finish, g2, g3]

/-- Against `envFifth` (408, 429, 408, 429, then 200 carrying `f1`) a fresh
`B2` uploads `hello` and gets `f1` back with a nil error. -/
theorem Upload_fifth_attempt_succeeds_witness :
    (Upload envFifth freshWorld hello helloArgs).1 = .returned "f1" none :=
  Upload_fifth_attempt_succeeds envFifth freshWorld hello helloArgs
    "\x7b\"fileId\":\"f1\"\x7d" [("fileId", .string "f1")] "f1"
    (fun _ => ⟨_, rfl, rfl⟩) (Or.inl rfl)
    (by
      intro i hi
      interval_cases i
      · exact ⟨⟨408, .data ""⟩, rfl, Or.inl rfl⟩
      · exact ⟨⟨429, .data ""⟩, rfl, Or.inr rfl⟩
      · exact ⟨⟨408, .data ""⟩, rfl, Or.inl rfl⟩
      · exact ⟨⟨429, .data ""⟩, rfl, Or.inr rfl⟩)
    rfl rfl rfl

/-- C2 fails as stated: against `envBadURL` target acquisition always
succeeds and no upload call is answered 200, yet `Upload` returns the request
construction error after zero upload calls. -/
theorem Upload_bad_url_makes_no_attempt :
    (∀ w0, ∃ w1, getUploadURL envBadURL w0 = (.returned none, w1)) ∧
      (∀ i resp, (envBadURL.upload i).result = .response resp → resp.statusCode ≠ 200) ∧
      (Upload envBadURL freshWorld hello helloArgs).1 =
        .returned "" (some (.wrap "could not create request" (.lib "missing protocol scheme"))) ∧
      uploadCalls (Upload envBadURL freshWorld hello helloArgs).2.trace = 0 :=
  ⟨fun _ => ⟨_, rfl⟩, by intro i resp h; cases h; decide, by decide, by decide⟩

/-- C2, amended: when target acquisition always succeeds, every upload request
can be built, and no upload call is answered with status 200, `Upload` issues
exactly five upload calls and returns an empty file id with the error recorded
for the fifth one. -/
theorem Upload_exhausts_attempts (E : Env) (w : World) (r : List Byte) (a : UploadArgs)
    (hacq : AcquisitionSucceeds E) (hb : Buildable E w)
    (hno : ∀ i resp, (E.upload i).result = .response resp → resp.statusCode ≠ 200) :
    (Upload E w r a).1 =
        .returned "" (some (specRecordedError (E.upload (w.nUpload + 4)).result)) ∧
      (Upload E w r a).2.nUpload = w.nUpload + 5 ∧
      uploadCalls (Upload E w r a).2.trace = uploadCalls w.trace + 5 := by
  obtain ⟨l1, w1, h1, h2, h3, h4, -, -, h5⟩ := retryLoop_not200 E a hacq 0 5 (initLocals r) w
    rfl hb (fun i _ resp hr => hno _ resp hr)
  unfold Upload
  rw [show (5 : Nat) = 5 + 0 from rfl, h1]
  simp [retryLoop, finish, h2, h3, h4, h5 4 rfl]

/-- Against `envNever` the five upload calls are made and the error of the
fifth (status 503, body text) comes back. -/
theorem Upload_exhausts_attempts_witness :
    (Upload envNever freshWorld hello helloArgs).1 =
        .returned "" (some (.new "service unavailable")) ∧
      (Upload envNever freshWorld hello helloArgs).2.nUpload = 5 ∧
      uploadCalls (Upload envNever freshWorld hello helloArgs).2.trace = 5 :=
  Upload_exhausts_attempts envNever freshWorld hello helloArgs
    (fun _ => ⟨_, rfl, rfl⟩) (Or.inl rfl)
    (by
      intro i resp h
      simp only [envNever] at h
      split_ifs at h <;> cases h <;> decide)

/-- C3 fails on the code: for an inbound `hello` whose first upload attempt
is answered 408 after the body was read, the second upload call announces
size 5 and the digest of `hello` but carries no bytes. -/
theorem ServeHTTP_retry_sends_drained_body :
    ServeHTTP envRetryOnce freshWorld helloRequest =
      { written := some { status := 200, text := "f1" },
        unread := [],
        world :=
          { b2 := ⟨"k1", "t1", "b1", "https://api.test", "acct", "tok", "https://pod.test/up"⟩,
            nAuthorize := 1, nGetUploadURL := 1, nUpload := 2,
            trace := [Call.authorizeAccount "k1" "t1",
              Call.getUploadURL "https://api.test/b2api/v2/b2_get_upload_url" "acct" "b1",
              Call.upload "https://pod.test/up" "tok" "a.txt" "text/plain" 5
                "aaf4c61ddcc5e8a2dabede0f3b482cd9aea9434d" [104, 101, 108, 108, 111],
              Call.sleep 1,
              Call.upload "https://pod.test/up" "tok" "a.txt" "text/plain" 5
                "aaf4c61ddcc5e8a2dabede0f3b482cd9aea9434d" []] } } := by
  decide

/-- C4: when an attempt followed by at least one more pass is answered 401,
both cached target fields are empty afterwards; the next pass calls
`getUploadURL` before anything else; and when that acquisition succeeds the next
attempt is sent, right after the authorize and get-upload-url calls, to the
upload URL and with the token that the new get-upload-url response carries. -/
theorem Upload_unauthorized_reacquires (E : Env) (a : UploadArgs) (n : Nat) (l l1 : Locals)
    (w w1 : World) (resp : Response)
    (hl : l.succeeded = false)
    (hat : attempt E a l w = (.next l1, w1))
    (hres : (E.upload w.nUpload).result = .response resp) (h401 : resp.statusCode = 401) :
    (w1.b2.uploadURL = "" ∧ w1.b2.uploadAuthToken = "") ∧
    retryLoop E a (n + 1) l1 w1 =
      (match getUploadURL E w1 with
        | (.panicked, w2) => (.panicked, w2)
        | (.returned (some err), w2) =>
          (.ret "" (some (.wrap "could not get upload url" err)), w2)
        | (.returned none, w2) =>
          match attempt E a l1 w2 with
          | (.next l3, w3) => retryLoop E a n l3 w3
          | out => out) ∧
    ∀ w2, getUploadURL E w1 = (.returned none, w2) → E.newRequestErr w2.b2.uploadURL = none →
      (∃ data o, E.getUploadURL w1.nGetUploadURL = .response ⟨200, .data data⟩ ∧
        E.jsonUnmarshal data = .ok o ∧
        assertString o "uploadUrl" = some w2.b2.uploadURL ∧
        assertString o "authorizationToken" = some w2.b2.uploadAuthToken) ∧
      ∃ url tok rest, (attempt E a l1 w2).2.trace = w1.trace ++
        [Call.authorizeAccount w1.b2.keyID w1.b2.keyToken,
          Call.getUploadURL url tok w1.b2.bucketID,
          Call.upload w2.b2.uploadURL w2.b2.uploadAuthToken a.fileName a.fileMediaType
            a.size a.hash l1.r] ++ rest := by
  obtain ⟨c1, c2, -, c4, -⟩ := attempt_401 E a l l1 w w1 resp hat hres h401
  refine ⟨⟨c1, c2⟩, ?_, ?_⟩
  · rw [retryLoop]
    simp only [c4, hl, Bool.false_eq_true, if_false]
    unfold iteration
    simp only [c1, true_or, if_true]
    cases hg : getUploadURL E w1 with
    | mk res w2 =>
      cases res with
      | panicked => rfl
      | returned err =>
        cases err with
        | some e => rfl
        | none =>
          simp only
  · intro w2 hg hreq2
    obtain ⟨wa, data, o, u, t, h1, -, h3, h4, h5, h6, h7⟩ := getUploadURL_ok_inv E w1 w2 hg
    obtain ⟨d0, o0, u0, t0, -, -, -, -, hwa⟩ := authorizeAccount_ok_inv E w1 wa h1
    have hu : w2.b2.uploadURL = u := by rw [h7]
    have ht : w2.b2.uploadAuthToken = t := by rw [h7]
    refine ⟨⟨data, o, ?_, h4, by rw [hu]; exact h5, by rw [ht]; exact h6⟩, ?_⟩
    · rw [← h3, hwa]
    · obtain ⟨ext, e1, -, e3⟩ := attempt_trace E a l1 w2
      obtain ⟨rest, hrest⟩ := e3 hreq2
      refine ⟨wa.b2.apiURL ++ "/b2api/v2/b2_get_upload_url", wa.b2.apiToken, rest, ?_⟩
      rw [e1, hrest, h7, hwa]
      simp [attemptCall]

/-- Against `envRotate` the attempt after the 401 goes to the second pod with
the second token. -/
theorem Upload_unauthorized_reacquires_witness :
    (rejectedWorld.b2.uploadURL = "" ∧ rejectedWorld.b2.uploadAuthToken = "") ∧
      (∃ data o, envRotate.getUploadURL rejectedWorld.nGetUploadURL =
          .response ⟨200, .data data⟩ ∧
        envRotate.jsonUnmarshal data = .ok o ∧
        assertString o "uploadUrl" = some "https://pod2.test/up" ∧
        assertString o "authorizationToken" = some "tok2") ∧
      ∃ url tok rest, (attempt envRotate helloArgs rejectedLocals reacquiredWorld).2.trace =
        rejectedWorld.trace ++
          [Call.authorizeAccount "k1" "t1", Call.getUploadURL url tok "b1",
            Call.upload "https://pod2.test/up" "tok2" "a.txt" "text/plain" 5
              "aaf4c61ddcc5e8a2dabede0f3b482cd9aea9434d" hello] ++ rest :=
  have h := Upload_unauthorized_reacquires envRotate helloArgs 3 (initLocals hello)
    rejectedLocals readyWorld rejectedWorld ⟨401, .data ""⟩ rfl rfl rfl rfl
  ⟨h.1, h.2.2 reacquiredWorld rfl rfl⟩

/-- C5: if `getUploadURL` returns an error on a pass of the loop, the first
included, `Upload` returns at once an empty file id and the error wrapped in
`could not get upload url`, however many passes remain, and no upload call is
issued on that pass or later. -/
theorem Upload_aborts_on_acquisition_failure (E : Env) (a : UploadArgs) (n : Nat) (l : Locals)
    (r : List Byte) (w w1 : World) (err : GoError)
    (hl : l.succeeded = false)
    (hmiss : w.b2.uploadURL = "" ∨ w.b2.uploadAuthToken = "")
    (hfail : getUploadURL E w = (.returned (some err), w1)) :
    finish (retryLoop E a (n + 1) l w) =
        (.returned "" (some (.wrap "could not get upload url" err)), w1) ∧
      Upload E w r a = (.returned "" (some (.wrap "could not get upload url" err)), w1) ∧
      w1.nUpload = w.nUpload ∧ uploadCalls w1.trace = uploadCalls w.trace := by
  have hit : ∀ l0 : Locals, iteration E a l0 w =
      (.ret "" (some (.wrap "could not get upload url" err)), w1) := by
    intro l0
    unfold iteration
    simp only [hmiss, if_true, hfail]
  obtain ⟨f1, -, ext, f3, f4⟩ := getUploadURL_frame E w
  rw [hfail] at f1 f3
  simp only at f1 f3
  refine ⟨?_, ?_, f1, ?_⟩
  · rw [retryLoop]
    simp only [hl, Bool.false_eq_true, if_false, hit l, finish]
  · rw [Upload, retryLoop]
    simp only [initLocals, Bool.false_eq_true, if_false, hit, finish]
  · rw [f3]
    simp only [uploadCalls, List.countP_append, List.countP_cons, Call.isUpload]
    rw [uploadCalls_eq_zero _ f4]
    simp

/-- Against `envAuthDown` a fresh `B2` returns the wrapped authorization
failure after the single authorize call. -/
theorem Upload_aborts_on_acquisition_failure_witness :
    Upload envAuthDown freshWorld hello helloArgs =
      (.returned "" (some (.wrap "could not get upload url"
        (.wrap "failed to authorize account"
          (.wrap "failed to authorize account account" (.new "bad key"))))), refusedWorld) :=
  (Upload_aborts_on_acquisition_failure envAuthDown helloArgs 4 (initLocals hello) hello
    freshWorld refusedWorld _ rfl (Or.inl rfl) rfl).2.1

/-- C6: a request whose `Archivist-File-Name` or `Content-Type` header is
empty or absent is answered with status 400; no backend call is made, the body
is left unread and the `B2` state is unchanged. -/
theorem ServeHTTP_rejects_missing_metadata (E : Env) (w : World) (req : Request)
    (h : headerGet req.header "Archivist-File-Name" = "" ∨
      headerGet req.header "Content-Type" = "") :
    ServeHTTP E w req =
      { written := some { status := 400, text := "file name and media type required\n" },
        unread := req.body, world := w } := by
  unfold ServeHTTP
  simp only [h, if_true, httpError]
  rfl

/-- A request without headers is answered 400 and nothing else happens. -/
theorem ServeHTTP_rejects_missing_metadata_witness :
    ServeHTTP envFifth freshWorld bareRequest =
      { written := some { status := 400, text := "file name and media type required\n" },
        unread := hello, world := freshWorld } :=
  ServeHTTP_rejects_missing_metadata envFifth freshWorld bareRequest (Or.inl rfl)

/-- C8 fails as stated: against `envEmptyToken`, whose first get-upload-url
answer has status 200 and an empty token, `Upload` issues an upload call with
the empty string as `Authorization`. -/
theorem Upload_sends_empty_token :
    envEmptyToken.getUploadURL 0 = .response ⟨200, .data emptyTokenBody⟩ ∧
      Call.upload "https://pod.test/up" "" "a.txt" "text/plain" 5
        "aaf4c61ddcc5e8a2dabede0f3b482cd9aea9434d" hello ∈
          (Upload envEmptyToken freshWorld hello helloArgs).2.trace :=
  ⟨rfl, by decide⟩

/-- C8, amended: when every 200 answer to get-upload-url carries a non-empty
`uploadUrl` and a non-empty `authorizationToken`, each upload call `Upload`
issues is made with a non-empty upload URL and a non-empty token. -/
theorem Upload_attempts_hold_target (E : Env) (w : World) (r : List Byte) (a : UploadArgs)
    (hne : ∀ i data o u t, E.getUploadURL i = .response ⟨200, .data data⟩ →
      E.jsonUnmarshal data = .ok o → assertString o "uploadUrl" = some u →
      assertString o "authorizationToken" = some t → u ≠ "" ∧ t ≠ "") :
    ∃ ext, (Upload E w r a).2.trace = w.trace ++ ext ∧
      ∀ url auth fileName contentType size sha1 body,
        Call.upload url auth fileName contentType size sha1 body ∈ ext →
          url ≠ "" ∧ auth ≠ "" := by
  obtain ⟨ext, h1, h2⟩ := retryLoop_holdsTarget E a hne 5 (initLocals r) w
  refine ⟨ext, by rw [Upload, finish_world, h1], ?_⟩
  intro url auth fileName contentType size sha1 body hc
  exact h2 _ hc

/-- Against `envFifth` every upload call of the run holds a target. -/
theorem Upload_attempts_hold_target_witness :
    ∃ ext, (Upload envFifth freshWorld hello helloArgs).2.trace = freshWorld.trace ++ ext ∧
      ∀ url auth fileName contentType size sha1 body,
        Call.upload url auth fileName contentType size sha1 body ∈ ext →
          url ≠ "" ∧ auth ≠ "" :=
  Upload_attempts_hold_target envFifth freshWorld hello helloArgs (by
    intro i data o u t h1 h2 h3 h4
    have hd : data = targetBody := by
      simp only [envFifth, DoResult.response.injEq, Response.mk.injEq, Body.data.injEq,
        true_and] at h1
      exact h1.symm
    subst hd
    have ho : envFifth.jsonUnmarshal targetBody = .ok
        [("uploadUrl", .string "https://pod.test/up"), ("authorizationToken", .string "tok")] :=
      rfl
    rw [ho] at h2
    cases h2
    have hu : assertString
        [("uploadUrl", .string "https://pod.test/up"), ("authorizationToken", .string "tok")]
        "uploadUrl" = some "https://pod.test/up" := rfl
    have ht : assertString
        [("uploadUrl", .string "https://pod.test/up"), ("authorizationToken", .string "tok")]
        "authorizationToken" = some "tok" := rfl
    rw [hu] at h3
    rw [ht] at h4
    cases h3
    cases h4
    exact ⟨by decide, by decide⟩)

/-- C9 fails as stated: against `envEmptyToken` the first attempt is
answered 408, and before the following attempt an authorize call and a
get-upload-url call are made; the following attempt goes to another URL with
another token. -/
theorem Upload_empty_token_reacquires_after_408 :
    (Upload envEmptyToken freshWorld hello helloArgs).2.trace =
      [Call.authorizeAccount "k1" "t1",
        Call.getUploadURL "https://api.test/b2api/v2/b2_get_upload_url" "acct" "b1",
        Call.upload "https://pod.test/up" "" "a.txt" "text/plain" 5
          "aaf4c61ddcc5e8a2dabede0f3b482cd9aea9434d" hello,
        Call.sleep 1,
        Call.authorizeAccount "k1" "t1",
        Call.getUploadURL "https://api.test/b2api/v2/b2_get_upload_url" "acct" "b1",
        Call.upload "https://pod2.test/up" "tok2" "a.txt" "text/plain" 5
          "aaf4c61ddcc5e8a2dabede0f3b482cd9aea9434d" hello] := by
  decide

/-- C9, amended: an attempt answered 408 or 429 leaves every `B2` field, the
four cached ones included, as it was and makes no authorize and no
get-upload-url call; when that attempt was made with a non-empty upload URL and
a non-empty token, the following attempt comes straight after the sleep, to the
same URL with the same token, with no authorize and no get-upload-url call in
between. -/
theorem Upload_retry_keeps_target (E : Env) (a : UploadArgs) (n : Nat) (l l1 : Locals)
    (w w1 : World) (resp : Response)
    (hl : l.succeeded = false)
    (hat : attempt E a l w = (.next l1, w1))
    (hres : (E.upload w.nUpload).result = .response resp)
    (hst : resp.statusCode = 408 ∨ resp.statusCode = 429) :
    (w1.b2 = w.b2 ∧ w1.nAuthorize = w.nAuthorize ∧ w1.nGetUploadURL = w.nGetUploadURL) ∧
    (w.b2.uploadURL ≠ "" → w.b2.uploadAuthToken ≠ "" →
      retryLoop E a (n + 1) l1 w1 =
        (match attempt E a l1 w1 with
          | (.next l2, w2) => retryLoop E a n l2 w2
          | out => out) ∧
      (attempt E a l1 w1).2.nAuthorize = w.nAuthorize ∧
      (attempt E a l1 w1).2.nGetUploadURL = w.nGetUploadURL ∧
      ∃ rest, (attempt E a l1 w1).2.trace = w.trace ++
        [Call.upload w.b2.uploadURL w.b2.uploadAuthToken a.fileName a.fileMediaType
            a.size a.hash l.r,
          Call.sleep 1,
          Call.upload w.b2.uploadURL w.b2.uploadAuthToken a.fileName a.fileMediaType
            a.size a.hash l1.r] ++ rest) := by
  have hreq : E.newRequestErr w.b2.uploadURL = none := by
    cases hnr : E.newRequestErr w.b2.uploadURL with
    | none => rfl
    | some e =>
      unfold attempt at hat
      rw [hnr] at hat
      simp at hat
  obtain ⟨l1', w1', g1, g2, g3, g4, g5, g6, -⟩ := attempt_408_429 E a l w resp hreq hres hst
  rw [hat] at g1
  simp only [Prod.mk.injEq, Step.next.injEq] at g1
  obtain ⟨rfl, rfl⟩ := g1
  refine ⟨⟨g2, g3, g4⟩, ?_⟩
  intro hu ht
  obtain ⟨k1, k2⟩ := attempt_counters E a l1 w1
  refine ⟨?_, by rw [k1, g3], by rw [k2, g4], ?_⟩
  · rw [retryLoop]
    simp only [g6, hl, Bool.false_eq_true, if_false]
    unfold iteration
    simp only [g2, hu, ht, or_self, if_false]
  · obtain ⟨ext, e1, -, e3⟩ := attempt_trace E a l1 w1
    obtain ⟨rest, hrest⟩ := e3 (by rw [g2]; exact hreq)
    refine ⟨rest, ?_⟩
    rw [e1, hrest, g5]
    simp [attemptCall, g2]

/-- Against `envFifth` the 408 leaves the `B2` fields alone and the attempt
after it reuses the pod and the token. -/
theorem Upload_retry_keeps_target_witness :
    (delayedWorld.b2 = readyWorld.b2 ∧ delayedWorld.nAuthorize = 1 ∧
        delayedWorld.nGetUploadURL = 1) ∧
      (attempt envFifth helloArgs delayedLocals delayedWorld).2.nAuthorize = 1 ∧
      (attempt envFifth helloArgs delayedLocals delayedWorld).2.nGetUploadURL = 1 ∧
      ∃ rest, (attempt envFifth helloArgs delayedLocals delayedWorld).2.trace =
        readyWorld.trace ++
          [Call.upload "https://pod.test/up" "tok" "a.txt" "text/plain" 5
              "aaf4c61ddcc5e8a2dabede0f3b482cd9aea9434d" hello,
            Call.sleep 1,
            Call.upload "https://pod.test/up" "tok" "a.txt" "text/plain" 5
              "aaf4c61ddcc5e8a2dabede0f3b482cd9aea9434d" []] ++ rest :=
  have h := Upload_retry_keeps_target envFifth helloArgs 3 (initLocals hello) delayedLocals
    readyWorld delayedWorld ⟨408, .data ""⟩ rfl rfl rfl (Or.inl rfl)
  have h2 := h.2 (by decide) (by decide)
  ⟨h.1, h2.2.1, h2.2.2.1, h2.2.2.2⟩

/-- C10 fails as stated: with a session cached and the target missing,
`getUploadURL` makes the authorize call and replaces the cached `apiToken`. -/
theorem getUploadURL_reauthorizes_cached_session :
    sessionWorld.b2.apiURL = "https://api.test" ∧ sessionWorld.b2.apiToken = "old" ∧
      getUploadURL envFifth sessionWorld =
        (.returned none,
          { b2 := ⟨"k1", "t1", "b1", "https://api.test", "acct", "tok", "https://pod.test/up"⟩,
            nAuthorize := 1, nGetUploadURL := 1, nUpload := 0,
            trace := [Call.authorizeAccount "k1" "t1",
              Call.getUploadURL "https://api.test/b2api/v2/b2_get_upload_url" "acct" "b1"] }) :=
  ⟨rfl, rfl, by decide⟩

/-- C10, amended: acquiring the target always performs the
account-authorization exchange first, whether or not a session is cached; when
the acquisition succeeds, `apiURL` and `apiToken` are the strings of the
authorize response. -/
theorem getUploadURL_always_authorizes (E : Env) (w : World) :
    (getUploadURL E w).2.nAuthorize = w.nAuthorize + 1 ∧
    (∃ ext, (getUploadURL E w).2.trace =
      w.trace ++ Call.authorizeAccount w.b2.keyID w.b2.keyToken :: ext) ∧
    ∀ w1, getUploadURL E w = (.returned none, w1) →
      ∃ data o, E.authorizeAccount w.nAuthorize = .response ⟨200, .data data⟩ ∧
        E.jsonUnmarshal data = .ok o ∧
        assertString o "apiUrl" = some w1.b2.apiURL ∧
        assertString o "authorizationToken" = some w1.b2.apiToken := by
  obtain ⟨-, f2, ext, f3, -⟩ := getUploadURL_frame E w
  refine ⟨f2, ⟨ext, f3⟩, ?_⟩
  intro w1 hg
  obtain ⟨wa, data, o, u, t, h1, -, -, -, -, -, h7⟩ := getUploadURL_ok_inv E w w1 hg
  obtain ⟨d0, o0, u0, t0, a1, a2, a3, a4, hwa⟩ := authorizeAccount_ok_inv E w wa h1
  refine ⟨d0, o0, a1, a2, ?_, ?_⟩
  · rw [h7, hwa]; exact a3
  · rw [h7, hwa]; exact a4

end Archivist
